import Mathlib

/-!
Shallow embedding of `src/static/script.js` from the voice-commanded
shopping-list client.

DOM containers are modelled as lists of rendered `<li>` entries; an entry
records its text content and whether the text is wrapped in `<strong>`.
The page state gathers the status line, the mic button label, the
`listening` flag, the current value of the language select, and the three
list containers.  Network outcomes are modelled with `Option`: `none` is a
transport or parse failure (a rejected promise), `some` a decoded JSON
response.  `price.toFixed(2)` is modelled over prices in integer cents.
Each fetch issued by the script is logged as a `Request` value carrying
the request body fields.
-/

/-- A rendered `<li>` entry: its text content, and whether the content is
wrapped in a `<strong>` element. -/
structure Li where
  text : String
  bold : Bool
deriving Repr, DecidableEq

/-- The page's transient UI state: status line, mic button label, the
module-level `listening` flag, the language select's current value, and
the three containers `shoppingList`, `suggestionsList`, `searchResults`. -/
structure UIState where
  statusMessage : String
  micLabel : String
  listening : Bool
  langValue : String
  shoppingList : List Li
  suggestionsList : List Li
  searchResults : List Li
deriving Repr, DecidableEq

/-- A shopping item as returned by `GET /list`: `{name, quantity}`.  The
script only interpolates `quantity` into text, so it is kept as the
interpolated string. -/
structure ShoppingItem where
  name : String
  quantity : String
deriving Repr, DecidableEq

/-- A product as returned by `POST /search`: `{name, brand, price}`, the
price in integer cents (the script renders it with `toFixed(2)`). -/
structure Product where
  name : String
  brand : String
  priceCents : Nat
deriving Repr, DecidableEq

/-- A decoded `POST /voice-command` response:
`{status, message, substitute_suggestions?}`; the optional field is
`none` when absent (falsy in the script's `if`). -/
structure VoiceResponse where
  status : String
  message : String
  substitute_suggestions : Option (List String)
deriving Repr, DecidableEq

/-- A decoded `POST /search` response: `{status, found_items}`. -/
structure SearchResponse where
  status : String
  found_items : List Product
deriving Repr, DecidableEq

/-- A network request issued by the script, with the body fields it
carries. -/
inductive Request where
  | voiceCommand (text lang : String)
  | search (text lang : String)
  | list
  | suggestions
deriving Repr, DecidableEq

/-- The backend's behaviour for one round of the flow: what each endpoint
returns, `none` standing for a transport or parse failure. -/
structure World where
  voiceResp : Option VoiceResponse
  searchResp : Option SearchResponse
  listResp : Option (List ShoppingItem)
deriving Repr, DecidableEq

/-- `price.toFixed(2)` over a price in integer cents. -/
def priceToFixed2 (cents : Nat) : String :=
  toString (cents / 100) ++ "." ++
    (if cents % 100 < 10 then "0" else "") ++ toString (cents % 100)

/-- The `<li>` built for one product by `updateSearchResults`:
`${product.name} (${product.brand}) - $${product.price.toFixed(2)}`. -/
def renderProduct (p : Product) : Li :=
  ⟨p.name ++ " (" ++ p.brand ++ ") - $" ++ priceToFixed2 p.priceCents, false⟩

/-- `updateSearchResults(results)`: clears `searchResults` and appends one
`<li>` per product. -/
def updateSearchResults (results : List Product) (s : UIState) : UIState :=
  { s with searchResults := results.map renderProduct }

/-- The `<li>` built for one shopping item by `refreshShoppingList`:
`${item.name} (${item.quantity})`. -/
def renderShoppingItem (it : ShoppingItem) : Li :=
  ⟨it.name ++ " (" ++ it.quantity ++ ")", false⟩

/-- The continuation of `refreshShoppingList` once `fetch("/list")`
settles.  The chain has no `.catch`, so a rejection (transport or parse
failure) runs no handler and leaves the page untouched.  On a decoded
array the container is cleared, then filled with the placeholder
`"No items yet."` when the array is empty, else one `<li>` per item. -/
def refreshShoppingListHandle (resp : Option (List ShoppingItem)) (s : UIState) : UIState :=
  match resp with
  | none => s
  | some items =>
    if items.length = 0 then
      { s with shoppingList := [⟨"No items yet.", false⟩] }
    else
      { s with shoppingList := items.map renderShoppingItem }

/-- `updateSuggestions(items, heading = "")`: sets the container to the
bold heading `<li>` when `heading` is truthy (nonempty) and to empty
otherwise, then appends either the `"No suggestions available."`
placeholder (empty `items`) or one `<li>` per suggestion. -/
def updateSuggestions (items : List String) (heading : String) (s : UIState) : UIState :=
  let init : List Li := if heading ≠ "" then [⟨heading, true⟩] else []
  if items.length = 0 then
    { s with suggestionsList := init ++ [⟨"No suggestions available.", false⟩] }
  else
    { s with suggestionsList := init ++ items.map (fun i => ⟨i, false⟩) }

/-- The continuation of `searchProducts` once `fetch("/search")` settles:
on rejection the `.catch` sets the status to `"❌ Search failed."`; on a
decoded response with `status === "success"` and nonempty `found_items`
it renders the results and reports the count, else it sets the container
to the single `"No results found."` placeholder and reports nothing
found. -/
def searchHandle (text : String) (resp : Option SearchResponse) (s : UIState) : UIState :=
  match resp with
  | none => { s with statusMessage := "❌ Search failed." }
  | some data =>
    if data.status = "success" ∧ 0 < data.found_items.length then
      { updateSearchResults data.found_items s with
          statusMessage :=
            "🔎 Found " ++ toString data.found_items.length ++ " result(s)." }
    else
      { s with
          searchResults := [⟨"No results found.", false⟩],
          statusMessage := "❌ Nothing found for: \"" ++ text ++ "\"" }

/-- `searchProducts(text, lang)`: issues `POST /search` with body
`{text, lang}` and handles its outcome. -/
def searchProducts (text lang : String) (w : World) (s : UIState) :
    UIState × List Request :=
  (searchHandle text w.searchResp s, [Request.search text lang])

/-- `processVoiceCommand(text)`: reads `lang` from the language select,
issues `POST /voice-command` with body `{text, lang}`; the `.catch` turns
a rejection into the status `"❌ Failed to process voice command."`; on a
response with `status === "success"` it sets the status to
`"✅ " + message`, renders `substitute_suggestions` under the heading
`"Suggested substitutes:"` when the field is present, and refreshes the
shopping list from `GET /list`; on any other response it sets the status
to `"🤔 Trying search instead..."` and falls back to `searchProducts`
with the same `text` and `lang`. -/
def processVoiceCommand (text : String) (w : World) (s : UIState) :
    UIState × List Request :=
  let lang := s.langValue
  let req := Request.voiceCommand text lang
  match w.voiceResp with
  | none => ({ s with statusMessage := "❌ Failed to process voice command." }, [req])
  | some data =>
    if data.status = "success" then
      let s1 := { s with statusMessage := "✅ " ++ data.message }
      let s2 :=
        match data.substitute_suggestions with
        | some subs => updateSuggestions subs "Suggested substitutes:" s1
        | none => s1
      (refreshShoppingListHandle w.listResp s2, [req, Request.list])
    else
      let s1 := { s with statusMessage := "🤔 Trying search instead..." }
      let p := searchProducts text lang w s1
      (p.1, req :: p.2)

/-- `recognition.continuous = false`. -/
def recognition_continuous : Bool := false

/-- `recognition.interimResults = false`. -/
def recognition_interimResults : Bool := false

/-- `recognition.onstart`: status `"🎙️ Listening..."`, button label
`"🛑 Stop"`, `listening = true`. -/
def onstart (s : UIState) : UIState :=
  { s with statusMessage := "🎙️ Listening...",
           micLabel := "🛑 Stop",
           listening := true }

/-- `recognition.onend`: status `"⏳ Processing..."`, button label back to
`"🎤 Start Listening"`, `listening = false`. -/
def onend (s : UIState) : UIState :=
  { s with statusMessage := "⏳ Processing...",
           micLabel := "🎤 Start Listening",
           listening := false }

/-- `recognition.onerror`: status `"⚠️ Error: " + event.error`,
`listening = false`; nothing else is touched. -/
def onerror (errCode : String) (s : UIState) : UIState :=
  { s with statusMessage := "⚠️ Error: " ++ errCode,
           listening := false }

/-- What a click on the mic button asks of the recognition engine. -/
inductive MicAction where
  | stopRecognition
  | startRecognition (lang : String)
deriving Repr, DecidableEq

/-- The mic button's click handler: while listening it stops recognition;
otherwise it assigns `recognition.lang` — `"es-ES"` when the language
select's value is `"es"`, `"en-US"` otherwise — and starts recognition. -/
def startMicClick (s : UIState) : MicAction :=
  if s.listening then MicAction.stopRecognition
  else MicAction.startRecognition (if s.langValue = "es" then "es-ES" else "en-US")

/-- A concrete idle page state used for concrete evaluations. -/
def idleState : UIState :=
  ⟨"", "🎤 Start Listening", false, "en", [], [], []⟩

/-- A `/search` response whose `status` is not `"success"` but whose
`found_items` is nonempty. -/
def nonSuccessSearchResp : SearchResponse :=
  ⟨"failure", [⟨"milk", "DairyCo", 299⟩]⟩

/-- Claim C1 counterexample: the claim says every `/search` response with
nonempty `found_items` re-populates the results container with those
results, but on a response with `status = "failure"` and one found item
the code takes the placeholder branch: the container shows
`"No results found."`, not the item. -/
theorem C1_counterexample :
    nonSuccessSearchResp.found_items.length ≠ 0 ∧
    (searchHandle "milk" (some nonSuccessSearchResp) idleState).searchResults
      = [⟨"No results found.", false⟩] ∧
    (searchHandle "milk" (some nonSuccessSearchResp) idleState).searchResults
      ≠ nonSuccessSearchResp.found_items.map renderProduct := by
  refine ⟨by decide, rfl, ?_⟩
  decide

/-- Claim C1 (amended): for every `/search` response, if its `status` is
`"success"` and `found_items` is nonempty the results container is
re-populated with those results; otherwise (empty `found_items`, or any
non-`"success"` status) the container shows exactly one literal
`"No results found."` placeholder entry. -/
theorem C1_search_render (text : String) (resp : SearchResponse) (s : UIState) :
    (resp.status = "success" → resp.found_items ≠ [] →
      (searchHandle text (some resp) s).searchResults
        = resp.found_items.map renderProduct) ∧
    (resp.status ≠ "success" ∨ resp.found_items = [] →
      (searchHandle text (some resp) s).searchResults
        = [⟨"No results found.", false⟩]) := by
  constructor
  · intro hs hne
    have hlen : 0 < resp.found_items.length := List.length_pos.mpr hne
    simp [searchHandle, updateSearchResults, hs, hlen]
  · intro h
    rcases h with h | h
    · simp [searchHandle, h]
    · simp [searchHandle, h]

/-- Claim C1 witness: on a `"success"` response holding one product the
container is re-populated with that product's rendered entry, and on a
`"success"` response with no products it holds exactly the placeholder. -/
theorem C1_search_render_witness :
    (searchHandle "milk" (some ⟨"success", [⟨"milk", "DairyCo", 299⟩]⟩) idleState).searchResults
      = [⟨"milk (DairyCo) - $2.99", false⟩] ∧
    (searchHandle "milk" (some ⟨"success", []⟩) idleState).searchResults
      = [⟨"No results found.", false⟩] := by
  constructor
  · have h := (C1_search_render "milk" ⟨"success", [⟨"milk", "DairyCo", 299⟩]⟩ idleState).1
      rfl (by decide)
    rw [h]
    decide
  · exact (C1_search_render "milk" ⟨"success", []⟩ idleState).2 (Or.inr rfl)

/-- Claim C2: for every transcript whose `/voice-command` response is
decoded but does not signal success, the script issues a `POST /search`
carrying exactly the same `text` and the same `lang` as the
`/voice-command` request. -/
theorem C2_nonmatch_forwards_search (text : String) (w : World) (s : UIState)
    (d : VoiceResponse) (hv : w.voiceResp = some d) (hns : d.status ≠ "success") :
    (processVoiceCommand text w s).2
      = [Request.voiceCommand text s.langValue, Request.search text s.langValue] := by
  simp [processVoiceCommand, searchProducts, hv, hns]

/-- Claim C2 witness: for the transcript `"blue cheese"` with language
`"en"` and an unrecognized-intent response, the two requests carry the
same text and language. -/
theorem C2_nonmatch_forwards_search_witness :
    (processVoiceCommand "blue cheese"
        ⟨some ⟨"failure", "Could not understand", none⟩, some ⟨"success", []⟩, some []⟩
        idleState).2
      = [Request.voiceCommand "blue cheese" "en", Request.search "blue cheese" "en"] := by
  have h := C2_nonmatch_forwards_search "blue cheese"
    ⟨some ⟨"failure", "Could not understand", none⟩, some ⟨"success", []⟩, some []⟩
    idleState ⟨"failure", "Could not understand", none⟩ rfl (by decide)
  rw [h]
  rfl

/-- Claim C3: a decoded empty `/list` response renders exactly one entry,
the placeholder `"No items yet."`; the container is never left empty; a
nonempty response renders one entry per item in order, formatted
`name (quantity)`. -/
theorem C3_list_render (items : List ShoppingItem) (s : UIState) :
    (items = [] →
      (refreshShoppingListHandle (some items) s).shoppingList
        = [⟨"No items yet.", false⟩]) ∧
    (refreshShoppingListHandle (some items) s).shoppingList ≠ [] ∧
    (items ≠ [] →
      (refreshShoppingListHandle (some items) s).shoppingList
        = items.map (fun it => ⟨it.name ++ " (" ++ it.quantity ++ ")", false⟩)) := by
  refine ⟨?_, ?_, ?_⟩
  · intro h
    simp [refreshShoppingListHandle, h]
  · by_cases h : items = []
    · simp [refreshShoppingListHandle, h]
    · have hlen : items.length ≠ 0 := by simpa using h
      simp [refreshShoppingListHandle, hlen, h]
  · intro h
    have hlen : items.length ≠ 0 := by simpa using h
    simp [refreshShoppingListHandle, renderShoppingItem, hlen]

/-- Claim C3 witness: an empty `/list` response renders the single
placeholder, and the two-item response
`[{name:"milk", quantity:"2"}, {name:"eggs", quantity:"12"}]` renders the
two formatted entries in order. -/
theorem C3_list_render_witness :
    (refreshShoppingListHandle (some []) idleState).shoppingList
      = [⟨"No items yet.", false⟩] ∧
    (refreshShoppingListHandle (some [⟨"milk", "2"⟩, ⟨"eggs", "12"⟩]) idleState).shoppingList
      = [⟨"milk (2)", false⟩, ⟨"eggs (12)", false⟩] := by
  constructor
  · exact (C3_list_render [] idleState).1 rfl
  · have h := (C3_list_render [⟨"milk", "2"⟩, ⟨"eggs", "12"⟩] idleState).2.2 (by decide)
    rw [h]
    decide

/-- `refreshShoppingList`'s continuation never touches the status line. -/
theorem refreshShoppingListHandle_statusMessage (r : Option (List ShoppingItem)) (s : UIState) :
    (refreshShoppingListHandle r s).statusMessage = s.statusMessage := by
  cases r with
  | none => rfl
  | some items =>
    by_cases h : items.length = 0 <;> simp [refreshShoppingListHandle, h]

/-- `refreshShoppingList`'s continuation never touches the suggestions
container. -/
theorem refreshShoppingListHandle_suggestionsList (r : Option (List ShoppingItem)) (s : UIState) :
    (refreshShoppingListHandle r s).suggestionsList = s.suggestionsList := by
  cases r with
  | none => rfl
  | some items =>
    by_cases h : items.length = 0 <;> simp [refreshShoppingListHandle, h]

/-- The suggestions container produced by `updateSuggestions` depends only
on the items and the heading, not on the prior page state. -/
theorem updateSuggestions_suggestionsList_ext (items : List String) (heading : String)
    (s s' : UIState) :
    (updateSuggestions items heading s).suggestionsList
      = (updateSuggestions items heading s').suggestionsList := by
  by_cases h : items.length = 0 <;> simp [updateSuggestions, h]

/-- Claim C4 counterexample: the claim says every view renderer renders
its literal placeholder on an empty input sequence rather than an empty
container, but `updateSearchResults` invoked with the empty sequence
leaves the results container empty — it has no placeholder branch (the
`"No results found."` entry is written by its caller `searchProducts`). -/
theorem C4_counterexample :
    (updateSearchResults [] idleState).searchResults = [] ∧
    ⟨"No results found.", false⟩ ∉ (updateSearchResults [] idleState).searchResults := by
  exact ⟨rfl, by decide⟩

/-- Claim C4 (amended): every view renderer, when invoked, first clears
its container — the result does not depend on the prior page state — and
re-populates it from the given sequence; the shopping-list and
suggestions renderers render their literal placeholders (`"No items
yet."` / `"No suggestions available."`) on an empty input sequence rather
than an empty container, while the search-results renderer re-populates
with exactly the given products and carries no placeholder branch: the
`"No results found."` placeholder is written directly by its caller,
which invokes the renderer only on nonempty sequences — so the search
view still shows exactly one placeholder entry when a `"success"`
response carries an empty sequence. -/
theorem C4_renderers (items : List ShoppingItem) (sugg : List String) (heading text : String)
    (results : List Product) (s s' : UIState) :
    ((refreshShoppingListHandle (some items) s).shoppingList
        = (refreshShoppingListHandle (some items) s').shoppingList ∧
      (updateSuggestions sugg heading s).suggestionsList
        = (updateSuggestions sugg heading s').suggestionsList ∧
      (updateSearchResults results s).searchResults
        = (updateSearchResults results s').searchResults) ∧
    (items = [] →
      (refreshShoppingListHandle (some items) s).shoppingList
        = [⟨"No items yet.", false⟩]) ∧
    (sugg = [] →
      ⟨"No suggestions available.", false⟩ ∈ (updateSuggestions sugg heading s).suggestionsList ∧
      (updateSuggestions sugg heading s).suggestionsList ≠ []) ∧
    (updateSearchResults results s).searchResults = results.map renderProduct ∧
    ((searchHandle text (some ⟨"success", []⟩) s).searchResults
        = [⟨"No results found.", false⟩]) := by
  refine ⟨⟨?_, updateSuggestions_suggestionsList_ext sugg heading s s', rfl⟩, ?_, ?_, rfl, rfl⟩
  · by_cases h : items.length = 0 <;> simp [refreshShoppingListHandle, h]
  · intro h
    simp [refreshShoppingListHandle, h]
  · intro h
    subst h
    by_cases hh : heading = "" <;> simp [updateSuggestions, hh]

/-- Claim C4 witness: with both renderers fed empty sequences from states
whose containers were previously nonempty, the shopping list shows its
placeholder and the suggestions container holds its placeholder. -/
theorem C4_renderers_witness :
    (refreshShoppingListHandle (some []) idleState).shoppingList
      = [⟨"No items yet.", false⟩] ∧
    ⟨"No suggestions available.", false⟩
      ∈ (updateSuggestions [] "Smart Suggestions:" idleState).suggestionsList := by
  have h := C4_renderers [] [] "Smart Suggestions:" "milk" [] idleState idleState
  exact ⟨h.2.1 rfl, (h.2.2.1 rfl).1⟩

/-- A page state in the middle of listening, used to exhibit that a
`/list` transport failure changes nothing. -/
def listeningState : UIState :=
  ⟨"🎙️ Listening...", "🛑 Stop", true, "en", [], [], []⟩

/-- Claim C5 counterexample: the claim says a transport failure on the
`/list` request is caught and converted to a generic failure status
string, but the `fetch("/list")` chain has no `.catch`: after a `/list`
transport failure the page state is completely unchanged — the status
still reads `"🎙️ Listening..."`, not any failure string. -/
theorem C5_counterexample :
    refreshShoppingListHandle none listeningState = listeningState ∧
    listeningState.statusMessage = "🎙️ Listening..." ∧
    (refreshShoppingListHandle none listeningState).statusMessage
      ≠ "❌ Failed to process voice command." ∧
    (refreshShoppingListHandle none listeningState).statusMessage
      ≠ "❌ Search failed." := by
  exact ⟨rfl, rfl, by decide, by decide⟩

/-- Claim C5 (amended): transport failures on `/voice-command` and
`/search` are caught and converted to the generic failure status strings
`"❌ Failed to process voice command."` and `"❌ Search failed."`; a
transport failure on `/list` is not caught and leaves the page, status
included, unchanged; in every one of these cases the shopping-list and
suggestions containers are left unchanged. -/
theorem C5_transport_failures (text : String) (w : World) (s : UIState) :
    (w.voiceResp = none →
      (processVoiceCommand text w s).1.statusMessage = "❌ Failed to process voice command." ∧
      (processVoiceCommand text w s).1.shoppingList = s.shoppingList ∧
      (processVoiceCommand text w s).1.suggestionsList = s.suggestionsList) ∧
    ((searchHandle text none s).statusMessage = "❌ Search failed." ∧
      (searchHandle text none s).shoppingList = s.shoppingList ∧
      (searchHandle text none s).suggestionsList = s.suggestionsList) ∧
    refreshShoppingListHandle none s = s := by
  refine ⟨?_, ⟨rfl, rfl, rfl⟩, rfl⟩
  intro hv
  simp [processVoiceCommand, hv]

/-- Claim C5 witness: from the listening state, a `/voice-command`
transport failure yields the generic failure status with both containers
untouched, and a `/list` transport failure changes nothing. -/
theorem C5_transport_failures_witness :
    (processVoiceCommand "add milk" ⟨none, none, none⟩ listeningState).1.statusMessage
      = "❌ Failed to process voice command." ∧
    refreshShoppingListHandle none listeningState = listeningState := by
  have h := C5_transport_failures "add milk" ⟨none, none, none⟩ listeningState
  exact ⟨(h.1 rfl).1, h.2.2⟩

/-- `updateSuggestions` never touches the status line. -/
theorem updateSuggestions_statusMessage (items : List String) (heading : String) (s : UIState) :
    (updateSuggestions items heading s).statusMessage = s.statusMessage := by
  by_cases h : items.length = 0 <;> simp [updateSuggestions, h]

/-- Claim C6: on a `/voice-command` response with `status = "success"` and
message `m`, the status line is set to `"✅ " ++ m`, the shopping list is
refreshed with a `GET /list` request, and when the response carries a
`substitute_suggestions` field the substitutes are rendered into the
suggestions view under the `"Suggested substitutes:"` heading. -/
theorem C6_success_flow (text : String) (w : World) (s : UIState) (d : VoiceResponse)
    (hv : w.voiceResp = some d) (hs : d.status = "success") :
    (processVoiceCommand text w s).1.statusMessage = "✅ " ++ d.message ∧
    (processVoiceCommand text w s).2 = [Request.voiceCommand text s.langValue, Request.list] ∧
    (∀ subs, d.substitute_suggestions = some subs →
      (processVoiceCommand text w s).1.suggestionsList
        = (updateSuggestions subs "Suggested substitutes:" s).suggestionsList) := by
  refine ⟨?_, ?_, ?_⟩
  · simp only [processVoiceCommand, hv, hs, if_pos]
    rw [refreshShoppingListHandle_statusMessage]
    cases hsub : d.substitute_suggestions with
    | none => rfl
    | some subs => rw [updateSuggestions_statusMessage]
  · simp [processVoiceCommand, hv, hs]
  · intro subs hsub
    simp only [processVoiceCommand, hv, hs, if_pos, hsub]
    rw [refreshShoppingListHandle_suggestionsList]
    exact updateSuggestions_suggestionsList_ext subs "Suggested substitutes:" _ s

/-- Claim C6 witness: the spec's example — text `"add milk 2"`, language
`"en"`, response `{status:"success", message:"Added milk"}` — sets the
status to `"✅ Added milk"` and issues the `/voice-command` and `/list`
requests. -/
theorem C6_success_flow_witness :
    (processVoiceCommand "add milk 2"
        ⟨some ⟨"success", "Added milk", none⟩, none, some []⟩ idleState).1.statusMessage
      = "✅ Added milk" ∧
    (processVoiceCommand "add milk 2"
        ⟨some ⟨"success", "Added milk", none⟩, none, some []⟩ idleState).2
      = [Request.voiceCommand "add milk 2" "en", Request.list] := by
  have h := C6_success_flow "add milk 2"
    ⟨some ⟨"success", "Added milk", none⟩, none, some []⟩ idleState
    ⟨"success", "Added milk", none⟩ rfl rfl
  refine ⟨?_, ?_⟩
  · rw [h.1]
    rfl
  · rw [h.2.1]
    rfl

/-- Claim C7: the recognition error handler sets the status line to
`"⚠️ Error: "` followed by the engine's error code and resets the
`listening` flag to `false`. -/
theorem C7_onerror_status (code : String) (s : UIState) :
    (onerror code s).statusMessage = "⚠️ Error: " ++ code ∧
    (onerror code s).listening = false :=
  ⟨rfl, rfl⟩

/-- Claim C8: the recognition engine is configured with
`continuous = false` and `interimResults = false`, and a click while not
listening starts recognition with locale `"es-ES"` exactly when the
language select's value is `"es"`, `"en-US"` for every other value — so
the assigned locale is always one of the two. -/
theorem C8_recognition_config (s : UIState) (hl : s.listening = false) :
    recognition_continuous = false ∧ recognition_interimResults = false ∧
    (s.langValue = "es" → startMicClick s = MicAction.startRecognition "es-ES") ∧
    (s.langValue ≠ "es" → startMicClick s = MicAction.startRecognition "en-US") ∧
    (startMicClick s = MicAction.startRecognition "es-ES" ∨
      startMicClick s = MicAction.startRecognition "en-US") := by
  refine ⟨rfl, rfl, ?_, ?_, ?_⟩
  · intro h
    simp [startMicClick, hl, h]
  · intro h
    simp [startMicClick, hl, h]
  · by_cases h : s.langValue = "es"
    · exact Or.inl (by simp [startMicClick, hl, h])
    · exact Or.inr (by simp [startMicClick, hl, h])

/-- An idle page state whose language select is on `"es"`. -/
def esIdleState : UIState :=
  ⟨"", "🎤 Start Listening", false, "es", [], [], []⟩

/-- Claim C8 witness: with the select on `"es"` a click starts recognition
with `"es-ES"`; with it on `"en"` (any non-`"es"` value) it starts with
`"en-US"`. -/
theorem C8_recognition_config_witness :
    startMicClick esIdleState = MicAction.startRecognition "es-ES" ∧
    startMicClick idleState = MicAction.startRecognition "en-US" := by
  constructor
  · exact (C8_recognition_config esIdleState rfl).2.2.1 rfl
  · exact (C8_recognition_config idleState rfl).2.2.2.1 (by decide)

/-- Claim C9: whenever `updateSuggestions` is called with a nonempty
heading, the container's first entry is the heading wrapped in a bold
list item, followed by the suggestion items (or the placeholder when
there are none); in particular an empty suggestion sequence with a
heading yields exactly two entries, not one. -/
theorem C9_suggestions_heading (items : List String) (heading : String) (s : UIState)
    (hh : heading ≠ "") :
    (updateSuggestions items heading s).suggestionsList
      = ⟨heading, true⟩ ::
          (if items = [] then [⟨"No suggestions available.", false⟩]
            else items.map fun i => ⟨i, false⟩) ∧
    (updateSuggestions items heading s).suggestionsList.head? = some ⟨heading, true⟩ ∧
    (items = [] → (updateSuggestions items heading s).suggestionsList.length = 2) := by
  by_cases hi : items = []
  · subst hi
    simp [updateSuggestions, hh]
  · have hlen : items.length ≠ 0 := by simpa using hi
    simp [updateSuggestions, hh, hi, hlen]

/-- Claim C9 witness: rendering no substitutes under the
`"Suggested substitutes:"` heading yields exactly the bold heading entry
followed by the placeholder — two entries. -/
theorem C9_suggestions_heading_witness :
    (updateSuggestions [] "Suggested substitutes:" idleState).suggestionsList
      = [⟨"Suggested substitutes:", true⟩, ⟨"No suggestions available.", false⟩] ∧
    (updateSuggestions [] "Suggested substitutes:" idleState).suggestionsList.length = 2 := by
  have h := C9_suggestions_heading [] "Suggested substitutes:" idleState (by decide)
  exact ⟨h.1, h.2.2 rfl⟩

/-- Claim C10: the recognition error handler changes only the status text
and the `listening` flag — the mic button's label and every container are
unchanged after an error event alone — and it is the end handler that
restores the idle label `"🎤 Start Listening"`. -/
theorem C10_onerror_frame (code : String) (s : UIState) :
    (onerror code s).micLabel = s.micLabel ∧
    (onerror code s).langValue = s.langValue ∧
    (onerror code s).shoppingList = s.shoppingList ∧
    (onerror code s).suggestionsList = s.suggestionsList ∧
    (onerror code s).searchResults = s.searchResults ∧
    (onend s).micLabel = "🎤 Start Listening" :=
  ⟨rfl, rfl, rfl, rfl, rfl, rfl⟩
